import Mathlib

/-!
Verification of the selection-criteria parser and resolution/dispatch engine
of qmi-firmware-update (src/qmi-firmware-update/qfu-main.c).

The embedding models:
- the four global numeric selection identifiers (`busnum`, `devnum`, `vid`,
  `pid`) as a `Globals` record of naturals (unset is the sentinel 0, exactly
  as in the C source);
- the two `GOptionArgFunc` callbacks `parse_busnum_devnum` and
  `parse_vid_pid` as state-passing functions `List Char → Globals →
  Bool × Globals`, returning the C `gboolean` result together with the
  globals after the call (strings are modelled as `List Char`);
- `select_path` and the post-option-parsing part of `main` as functions
  parametric over the two external collaborators (the udev helper used for
  device enumeration, and the three operation entry points), so that
  "collaborator never invoked" is expressed as invariance of the result over
  the collaborator argument.
-/

namespace Qfu

/-- ULONG_MAX on the 64-bit platforms targeted by the tool (`gulong` is the
C `unsigned long`); `strtoul` clamps its result to this value on overflow. -/
def ULONG_MAX : Nat := 2 ^ 64 - 1

/-- G_MAXUINT: maximum of the 32-bit `guint` type of `busnum` / `devnum`. -/
def G_MAXUINT : Nat := 2 ^ 32 - 1

/-- G_MAXUINT16: maximum of the 16-bit `guint16` type of `vid` / `pid`. -/
def G_MAXUINT16 : Nat := 2 ^ 16 - 1

/-- The four global numeric device-selection identifiers of qfu-main.c
(`static guint busnum, devnum; static guint16 vid, pid;`).  0 is the
"unset" sentinel for each of them. -/
structure Globals where
  busnum : Nat
  devnum : Nat
  vid : Nat
  pid : Nat
deriving DecidableEq, Repr

/-- All-unset globals: the state at program start. -/
def g0 : Globals := ⟨0, 0, 0, 0⟩

/-- ASCII decimal digit `0`..`9`. -/
def isDigitChar (c : Char) : Bool := 48 ≤ c.toNat && c.toNat ≤ 57

/-- ASCII lowercase letter `a`..`z`. -/
def isLowerChar (c : Char) : Bool := 97 ≤ c.toNat && c.toNat ≤ 122

/-- ASCII uppercase letter `A`..`Z`. -/
def isUpperChar (c : Char) : Bool := 65 ≤ c.toNat && c.toNat ≤ 90

/-- The numeric value of `c` as a digit in the given base, if `c` is a valid
digit there (as accepted by C `strtoul`: `0`-`9`, `a`-`z`, `A`-`Z`). -/
def digitValue? (base : Nat) (c : Char) : Option Nat :=
  if isDigitChar c then
    if c.toNat - 48 < base then some (c.toNat - 48) else none
  else if isLowerChar c then
    if c.toNat - 87 < base then some (c.toNat - 87) else none
  else if isUpperChar c then
    if c.toNat - 55 < base then some (c.toNat - 55) else none
  else none

/-- Accumulating digit scan of `strtoul`: consumes the longest prefix of
base-`base` digits, returning the accumulated value. -/
def strtoulAux (base : Nat) : List Char → Nat → Nat
  | [], acc => acc
  | c :: cs, acc =>
    match digitValue? base c with
    | some d => strtoulAux base cs (acc * base + d)
    | none => acc

/-- Model of the C call `strtoul (s, NULL, base)`: the value of the longest
prefix of base-`base` digits of `s`, clamped to `ULONG_MAX` (which is what
`strtoul` returns on overflow); 0 when `s` starts with no digit.  The
leading-whitespace, sign and `0x`-prefix forms that `strtoul` also accepts
do not occur in any input considered here and are not modelled. -/
def strtoul (s : List Char) (base : Nat) : Nat :=
  min (strtoulAux base s 0) ULONG_MAX

/-- Splitting a character list at every `:` (each occurrence separates two
fields, so empty fields are kept).  Always returns at least one field. -/
def splitOnColon : List Char → List (List Char)
  | [] => [[]]
  | c :: cs =>
    if c = ':' then [] :: splitOnColon cs
    else
      match splitOnColon cs with
      | [] => [[c]]
      | t :: ts => (c :: t) :: ts

/-- Model of `g_strsplit (value, ":", -1)`: GLib returns an empty vector for
the empty string and otherwise the `:`-separated fields (empties kept). -/
def g_strsplit (s : List Char) : List (List Char) :=
  if s = [] then [] else splitOnColon s

/-- The `parse_busnum_devnum` option callback (qfu-main.c lines 73-119).
Splits on `:`; with two fields, field 0 is the bus number and field 1 the
device number, with one field only the device number is given; three or
more fields is an error.  Each field is parsed with `strtoul` base 10 and
must be non-zero and at most `G_MAXUINT`.  The C function writes each
global as soon as its own field has validated, so with two fields the
global `busnum` is already updated when the `devnum` field fails.  Returns
the `gboolean` result together with the globals after the call.  (An empty
input would trip the C `g_assert (strv[0])` and abort; it is mapped to a
plain failure here and is not relied on by any theorem.) -/
def parse_busnum_devnum (value : List Char) (g : Globals) : Bool × Globals :=
  match g_strsplit value with
  | [] => (false, g)
  | [f0] =>
    let aux := strtoul f0 10
    if aux = 0 ∨ aux > G_MAXUINT then (false, g)
    else (true, { g with devnum := aux })
  | [f0, f1] =>
    let aux := strtoul f0 10
    if aux = 0 ∨ aux > G_MAXUINT then (false, g)
    else
      let g1 := { g with busnum := aux }
      let aux2 := strtoul f1 10
      if aux2 = 0 ∨ aux2 > G_MAXUINT then (false, g1)
      else (true, { g1 with devnum := aux2 })
  | _ => (false, g)

/-- The `parse_vid_pid` option callback (qfu-main.c lines 121-166).
Splits on `:`; field 0 is always the vendor id, field 1 (when present) the
product id; three or more fields is an error.  Each field is parsed with
`strtoul` base 16 and must be non-zero and at most `G_MAXUINT16`.  The C
function parses the product-id field first, so with two fields the global
`pid` is already updated when the vendor-id field fails. -/
def parse_vid_pid (value : List Char) (g : Globals) : Bool × Globals :=
  match g_strsplit value with
  | [] => (false, g)
  | [f0] =>
    let aux := strtoul f0 16
    if aux = 0 ∨ aux > G_MAXUINT16 then (false, g)
    else (true, { g with vid := aux })
  | [f0, f1] =>
    let aux := strtoul f1 16
    if aux = 0 ∨ aux > G_MAXUINT16 then (false, g)
    else
      let g1 := { g with pid := aux }
      let aux2 := strtoul f0 16
      if aux2 = 0 ∨ aux2 > G_MAXUINT16 then (false, g1)
      else (true, { g1 with vid := aux2 })
  | _ => (false, g)

/-- The `QfuUdevHelperDeviceType` enumeration: character device (cdc-wdm,
QMI-mode actions) or serial/TTY device (QDL-mode action). -/
inductive DeviceType where
  | cdcWdm
  | tty
deriving DecidableEq, Repr

/-- The udev-helper enumeration collaborator consumed by `select_path`:
`find` models `qfu_udev_helper_find_by_device_info` (a sysfs path, or an
error message), `listDevices` models `qfu_udev_helper_list_devices` (the
ordered list of device-node paths found under a sysfs path). -/
structure UdevHelper where
  find : Nat → Nat → Nat → Nat → Except String String
  listDevices : DeviceType → String → List String

/-- The three operation entry points invoked by `main`:
`qfu_operation_update_run`, `qfu_operation_update_qdl_run`,
`qfu_operation_verify_run`, each returning the `gboolean` success value. -/
structure Operations where
  update_run : List String → String → Option String → Option String →
    Option String → Bool → Bool → Bool
  update_qdl_run : List String → String → Bool
  verify_run : List String → Bool

/-- `select_path` (qfu-main.c lines 356-406), parametric over the udev
helper collaborator.  `manual` is the `const char *manual` argument (NULL
modelled as `none`); the gboolean-style guards read the numeric globals.
`Except.error` carries the message printed after the `error: ` prefix;
`Except.ok` carries the returned path. -/
def select_path (h : UdevHelper) (manual : Option String) (ty : DeviceType)
    (g : Globals) : Except String String :=
  if manual.isSome && (g.vid != 0 || g.pid != 0) then
    Except.error ("cannot specify device path and vid:pid lookup")
  else if manual.isSome && (g.busnum != 0 || g.devnum != 0) then
    Except.error ("cannot specify device path and busnum:devnum lookup")
  else if (g.vid != 0 || g.pid != 0) && (g.busnum != 0 || g.devnum != 0) then
    Except.error ("cannot specify busnum:devnum and vid:pid lookups")
  else
    match manual with
    | some m => Except.ok m
    | none =>
      match h.find g.vid g.pid g.busnum g.devnum with
      | Except.error e => Except.error e
      | Except.ok sysfs_path =>
        match h.listDevices ty sysfs_path with
        | [] => Except.error ("no devices found in sysfs path: " ++ sysfs_path)
        | d :: _ => Except.ok d

/-- The whole option state of one run, as left by `g_option_context_parse`:
the four numeric globals plus the action flags, path overrides, update
parameters and positional image arguments of qfu-main.c lines 44-67.
`image_strv = []` models the NULL `gchar **image_strv` (the option parser
only ever sets it to a non-empty vector). -/
structure Config extends Globals where
  action_update_flag : Bool
  device_str : Option String
  firmware_version_str : Option String
  config_version_str : Option String
  carrier_str : Option String
  device_open_proxy_flag : Bool
  device_open_mbim_flag : Bool
  action_update_qdl_flag : Bool
  serial_str : Option String
  action_verify_flag : Bool
  image_strv : List String

/-- The C addition of the three `gboolean` action flags
(`n_actions = action_verify_flag + action_update_flag +
action_update_qdl_flag`, qfu-main.c line 467). -/
def n_actions (c : Config) : Nat :=
  (cond c.action_verify_flag 1 0) + (cond c.action_update_flag 1 0) +
    (cond c.action_update_qdl_flag 1 0)

/-- The body of `main` from the action-count check to the dispatch
(qfu-main.c lines 466-512), i.e. a run in which option parsing succeeded
and neither `--version` nor `--help` was given.  `Except.error` carries a
validation or resolution error message (printed and terminal, with
`result` left FALSE); `Except.ok b` means an operation was dispatched and
returned `b`.  The final branch models the unreachable
`g_assert_not_reached ()`. -/
def main_run (h : UdevHelper) (ops : Operations) (c : Config) :
    Except String Bool :=
  if n_actions c = 0 then Except.error ("no actions specified")
  else if n_actions c > 1 then Except.error ("too many actions specified")
  else if c.image_strv = [] then Except.error ("no firmware images specified")
  else if c.action_update_flag then
    match select_path h c.device_str DeviceType.cdcWdm c.toGlobals with
    | Except.error e => Except.error e
    | Except.ok path =>
      Except.ok (ops.update_run c.image_strv path c.firmware_version_str
        c.config_version_str c.carrier_str c.device_open_proxy_flag
        c.device_open_mbim_flag)
  else if c.action_update_qdl_flag then
    match select_path h c.serial_str DeviceType.tty c.toGlobals with
    | Except.error e => Except.error e
    | Except.ok path => Except.ok (ops.update_qdl_run c.image_strv path)
  else if c.action_verify_flag then
    Except.ok (ops.verify_run c.image_strv)
  else Except.error ("g_assert_not_reached")

/-- The process exit status derived from `main`'s `result` variable
(qfu-main.c line 519): EXIT_SUCCESS (0) iff the dispatched operation
reported success, EXIT_FAILURE (1) on any validation or resolution error
or operation failure. -/
def exit_status (r : Except String Bool) : Nat :=
  match r with
  | Except.error _ => 1
  | Except.ok b => cond b 0 1

/-- The decimal value denoted by a string of decimal digits (most
significant digit first); stated independently of `strtoul`. -/
def decimalValue (s : List Char) : Nat :=
  s.foldl (fun a c => a * 10 + (c.toNat - 48)) 0

/-- ASCII hexadecimal digit `0`-`9`, `a`-`f`, `A`-`F`. -/
def isHexDigitChar (c : Char) : Bool :=
  isDigitChar c || (97 ≤ c.toNat && c.toNat ≤ 102) ||
    (65 ≤ c.toNat && c.toNat ≤ 70)

/-- The value of one hexadecimal digit. -/
def hexDigitValue (c : Char) : Nat :=
  if isDigitChar c then c.toNat - 48
  else if isLowerChar c then c.toNat - 87
  else c.toNat - 55

/-- The hexadecimal value denoted by a string of hex digits (most
significant digit first); stated independently of `strtoul`. -/
def hexValue (s : List Char) : Nat :=
  s.foldl (fun a c => a * 16 + hexDigitValue c) 0

/-- A udev helper whose enumeration query fails (no matching device). -/
def findFail : UdevHelper :=
  { find := fun _ _ _ _ => Except.error ("no device found matching filters")
    listDevices := fun _ _ => [] }

/-- A udev helper that finds a sysfs path holding two device nodes. -/
def findOk : UdevHelper :=
  { find := fun _ _ _ _ => Except.ok ("/sys/devices/usb1/1-2")
    listDevices := fun _ _ => [("/dev/cdc-wdm0"), ("/dev/cdc-wdm1")] }

/-- A udev helper that finds a sysfs path holding no device node. -/
def findOkEmpty : UdevHelper :=
  { find := fun _ _ _ _ => Except.ok ("/sys/devices/usb1/1-2")
    listDevices := fun _ _ => [] }

/-- Operation entry points that all report the given success value. -/
def opsConst (b : Bool) : Operations :=
  { update_run := fun _ _ _ _ _ _ _ => b
    update_qdl_run := fun _ _ => b
    verify_run := fun _ => b }

/-- Option state with every flag cleared, every pointer NULL and every
numeric global at its unset sentinel. -/
def baseConfig : Config :=
  { busnum := 0, devnum := 0, vid := 0, pid := 0
    action_update_flag := false, device_str := none
    firmware_version_str := none, config_version_str := none
    carrier_str := none, device_open_proxy_flag := false
    device_open_mbim_flag := false, action_update_qdl_flag := false
    serial_str := none, action_verify_flag := false, image_strv := [] }

/-- Option state of the run `--update --firmware-version 05.05.58.00
--config-version 005.025_002 --carrier Generic --device-open-proxy
fw.cwe`. -/
def cfgUpdate : Config :=
  { baseConfig with
    action_update_flag := true
    firmware_version_str := some ("05.05.58.00")
    config_version_str := some ("005.025_002")
    carrier_str := some ("Generic")
    device_open_proxy_flag := true
    image_strv := [("fw.cwe")] }

/-- Operation table whose update entry checks it received exactly the
parameters of `cfgUpdate` with the first findOk device node. -/
def opsUpdateCheck : Operations :=
  { update_run := fun imgs path fw cfg car proxy mbim =>
      imgs = [("fw.cwe")] && path = ("/dev/cdc-wdm0") &&
        fw = some ("05.05.58.00") && cfg = some ("005.025_002") &&
        car = some ("Generic") && proxy == true && mbim == false
    update_qdl_run := fun _ _ => false
    verify_run := fun _ => false }

/-- Option state of the run `--update-qdl --serial /dev/ttyUSB3 fw.cwe`. -/
def cfgQdl : Config :=
  { baseConfig with
    action_update_qdl_flag := true
    serial_str := some ("/dev/ttyUSB3")
    image_strv := [("fw.cwe")] }

/-- Operation table whose QDL entry checks it received exactly the image
list and the manual serial path of `cfgQdl`. -/
def opsQdlCheck : Operations :=
  { update_run := fun _ _ _ _ _ _ _ => false
    update_qdl_run := fun imgs path =>
      imgs = [("fw.cwe")] && path = ("/dev/ttyUSB3")
    verify_run := fun _ => false }

/-- Option state of the run `--verify file1.cwe file2.nvu`. -/
def cfgVerify : Config :=
  { baseConfig with
    action_verify_flag := true
    image_strv := [("file1.cwe"), ("file2.nvu")] }

/-- Operation table whose verify entry checks it received exactly the
image list of `cfgVerify`. -/
def opsVerifyCheck : Operations :=
  { update_run := fun _ _ _ _ _ _ _ => false
    update_qdl_run := fun _ _ => false
    verify_run := fun imgs => imgs = [("file1.cwe"), ("file2.nvu")] }

/-- Option state of a `--verify` run that also sets `--device`,
`--vid-pid 1199:9071` and `--busnum-devnum 1:2` simultaneously. -/
def cfgVerifyAllCriteria : Config :=
  { busnum := 1, devnum := 2, vid := 4505, pid := 36977
    action_update_flag := false, device_str := some ("/dev/cdc-wdm0")
    firmware_version_str := none, config_version_str := none
    carrier_str := none, device_open_proxy_flag := false
    device_open_mbim_flag := false, action_update_qdl_flag := false
    serial_str := none, action_verify_flag := true
    image_strv := [("fw.cwe")] }

/-! ## Basic facts about the character and `strtoul` models -/

theorem isDigitChar_ne_colon (c : Char) (h : isDigitChar c = true) :
    c ≠ ':' := by
  intro he
  subst he
  exact absurd h (by decide)

theorem isHexDigitChar_ne_colon (c : Char) (h : isHexDigitChar c = true) :
    c ≠ ':' := by
  intro he
  subst he
  exact absurd h (by decide)

theorem digitValue_ten_of_digit (c : Char) (h : isDigitChar c = true) :
    digitValue? 10 c = some (c.toNat - 48) := by
  simp only [isDigitChar, Bool.and_eq_true, decide_eq_true_eq] at h
  simp only [digitValue?, isDigitChar, Bool.and_eq_true, decide_eq_true_eq]
  rw [if_pos h, if_pos (by omega)]

theorem digitValue_sixteen_of_hex (c : Char) (h : isHexDigitChar c = true) :
    digitValue? 16 c = some (hexDigitValue c) := by
  simp only [isHexDigitChar, isDigitChar, Bool.or_eq_true, Bool.and_eq_true,
    decide_eq_true_eq] at h
  simp only [digitValue?, hexDigitValue, isDigitChar, isLowerChar,
    isUpperChar, Bool.and_eq_true, decide_eq_true_eq]
  rcases h with (h | h) | h
  · rw [if_pos h, if_pos (by omega), if_pos h]
  · rw [if_neg (by omega), if_pos (by omega), if_pos (by omega),
      if_neg (by omega), if_pos (by omega)]
  · rw [if_neg (by omega), if_neg (by omega), if_pos (by omega),
      if_pos (by omega), if_neg (by omega), if_neg (by omega)]

theorem strtoulAux_ten (s : List Char)
    (hs : ∀ c ∈ s, isDigitChar c = true) :
    ∀ a, strtoulAux 10 s a =
      s.foldl (fun x c => x * 10 + (c.toNat - 48)) a := by
  induction s with
  | nil => intro a; rfl
  | cons c cs ih =>
    intro a
    have hc := hs c (by simp)
    simp only [strtoulAux, digitValue_ten_of_digit c hc, List.foldl]
    exact ih (fun x hx => hs x (by simp [hx])) _

theorem strtoulAux_sixteen (s : List Char)
    (hs : ∀ c ∈ s, isHexDigitChar c = true) :
    ∀ a, strtoulAux 16 s a =
      s.foldl (fun x c => x * 16 + hexDigitValue c) a := by
  induction s with
  | nil => intro a; rfl
  | cons c cs ih =>
    intro a
    have hc := hs c (by simp)
    simp only [strtoulAux, digitValue_sixteen_of_hex c hc, List.foldl]
    exact ih (fun x hx => hs x (by simp [hx])) _

theorem strtoul_ten (s : List Char)
    (hs : ∀ c ∈ s, isDigitChar c = true) :
    strtoul s 10 = min (decimalValue s) ULONG_MAX := by
  simp only [strtoul, strtoulAux_ten s hs 0, decimalValue]

theorem strtoul_sixteen (s : List Char)
    (hs : ∀ c ∈ s, isHexDigitChar c = true) :
    strtoul s 16 = min (hexValue s) ULONG_MAX := by
  simp only [strtoul, strtoulAux_sixteen s hs 0, hexValue]

theorem splitOnColon_no_colon (s : List Char) (hs : ∀ c ∈ s, c ≠ ':') :
    splitOnColon s = [s] := by
  induction s with
  | nil => rfl
  | cons c cs ih =>
    have hc : c ≠ ':' := hs c (by simp)
    have ih' := ih (fun x hx => hs x (by simp [hx]))
    simp [splitOnColon, hc, ih']

theorem splitOnColon_append (b t : List Char) (hb : ∀ c ∈ b, c ≠ ':') :
    splitOnColon (b ++ ':' :: t) = b :: splitOnColon t := by
  induction b with
  | nil => simp [splitOnColon]
  | cons c cs ih =>
    have hc : c ≠ ':' := hb c (by simp)
    have ih' := ih (fun x hx => hb x (by simp [hx]))
    simp only [List.cons_append, splitOnColon, if_neg hc, List.append_eq, ih']

theorem g_strsplit_single (s : List Char) (hne : s ≠ [])
    (hs : ∀ c ∈ s, c ≠ ':') : g_strsplit s = [s] := by
  simp [g_strsplit, hne, splitOnColon_no_colon s hs]

theorem g_strsplit_pair (b d : List Char) (hb : ∀ c ∈ b, c ≠ ':')
    (hd : ∀ c ∈ d, c ≠ ':') :
    g_strsplit (b ++ ':' :: d) = [b, d] := by
  have hne : b ++ ':' :: d ≠ [] := by simp
  simp [g_strsplit, hne, splitOnColon_append b d hb,
    splitOnColon_no_colon d hd]

/-! ## Claim C1 -/

/-- C1 is refuted: on the input `5:0`, `parse_busnum_devnum` starting from
all-unset globals fails (the device-number field parses to 0), yet the
global `busnum` has been changed from 0 to 5 by the successfully parsed
first field — partial state is retained on error. -/
theorem C1_counterexample :
    (parse_busnum_devnum ['5', ':', '0'] g0).1 = false ∧
    (parse_busnum_devnum ['5', ':', '0'] g0).2 ≠ g0 ∧
    (parse_busnum_devnum ['5', ':', '0'] g0).2.busnum = 5 := by
  refine ⟨by decide, ?_, by decide⟩
  intro h
  exact absurd (congrArg Globals.busnum h) (by decide)

/-- C1 amended: on error, the field that failed to parse and every field
the callback had not yet written are unchanged — for `parse_busnum_devnum`
the globals `devnum`, `vid`, `pid`; for `parse_vid_pid` the globals `vid`,
`busnum`, `devnum` — but a field parsed successfully earlier in the same
call (`busnum`, respectively `pid`, of a two-field input) may retain the
newly parsed value. -/
theorem C1_no_partial_state_amended (value : List Char) (g : Globals) :
    ((parse_busnum_devnum value g).1 = false →
      (parse_busnum_devnum value g).2.devnum = g.devnum ∧
      (parse_busnum_devnum value g).2.vid = g.vid ∧
      (parse_busnum_devnum value g).2.pid = g.pid) ∧
    ((parse_vid_pid value g).1 = false →
      (parse_vid_pid value g).2.vid = g.vid ∧
      (parse_vid_pid value g).2.busnum = g.busnum ∧
      (parse_vid_pid value g).2.devnum = g.devnum) := by
  constructor
  · intro hf
    unfold parse_busnum_devnum at hf ⊢
    cases hs : g_strsplit value with
    | nil => rw [hs] at hf; simp
    | cons f0 rest =>
      cases rest with
      | nil =>
        rw [hs] at hf
        simp only [] at hf ⊢
        split at hf <;> split_ifs <;> simp_all
      | cons f1 rest2 =>
        cases rest2 with
        | nil =>
          rw [hs] at hf
          simp only [] at hf ⊢
          split at hf <;> split_ifs <;> simp_all
        | cons f2 rest3 => rw [hs] at hf; simp
  · intro hf
    unfold parse_vid_pid at hf ⊢
    cases hs : g_strsplit value with
    | nil => rw [hs] at hf; simp
    | cons f0 rest =>
      cases rest with
      | nil =>
        rw [hs] at hf
        simp only [] at hf ⊢
        split at hf <;> split_ifs <;> simp_all
      | cons f1 rest2 =>
        cases rest2 with
        | nil =>
          rw [hs] at hf
          simp only [] at hf ⊢
          split at hf <;> split_ifs <;> simp_all
        | cons f2 rest3 => rw [hs] at hf; simp

/-- Witness for the amended C1: the failing call on `5:0` (decimal) and on
`0:ABCD` (hexadecimal) leaves the respective not-yet-written globals at
their previous values. -/
theorem C1_witness :
    ((parse_busnum_devnum ['5', ':', '0'] g0).2.devnum = g0.devnum ∧
      (parse_busnum_devnum ['5', ':', '0'] g0).2.vid = g0.vid ∧
      (parse_busnum_devnum ['5', ':', '0'] g0).2.pid = g0.pid) ∧
    ((parse_vid_pid ['0', ':', 'A', 'B', 'C', 'D'] g0).2.vid = g0.vid ∧
      (parse_vid_pid ['0', ':', 'A', 'B', 'C', 'D'] g0).2.busnum = g0.busnum ∧
      (parse_vid_pid ['0', ':', 'A', 'B', 'C', 'D'] g0).2.devnum = g0.devnum) :=
  ⟨(C1_no_partial_state_amended ['5', ':', '0'] g0).1 (by decide),
   (C1_no_partial_state_amended ['0', ':', 'A', 'B', 'C', 'D'] g0).2 (by decide)⟩

/-! ## Claim C2 -/

/-- C2: the three exclusivity checks of `select_path` are evaluated in the
fixed order manual-vs-vid:pid, manual-vs-busnum:devnum,
vid:pid-vs-busnum:devnum; whenever the first check's condition holds its
message is the one surfaced (regardless of the other conditions), the
second check's message surfaces only when the first condition fails, and
the third only with no manual path; in each case the result is the same
for every udev helper, so the enumeration collaborator is never invoked. -/
theorem C2_check_order (g : Globals) (m : String) (ty : DeviceType)
    (h : UdevHelper) :
    ((g.vid ≠ 0 ∨ g.pid ≠ 0) →
      select_path h (some m) ty g =
        Except.error ("cannot specify device path and vid:pid lookup")) ∧
    (g.vid = 0 → g.pid = 0 → (g.busnum ≠ 0 ∨ g.devnum ≠ 0) →
      select_path h (some m) ty g =
        Except.error ("cannot specify device path and busnum:devnum lookup")) ∧
    ((g.vid ≠ 0 ∨ g.pid ≠ 0) → (g.busnum ≠ 0 ∨ g.devnum ≠ 0) →
      select_path h none ty g =
        Except.error ("cannot specify busnum:devnum and vid:pid lookups")) := by
  refine ⟨fun hvp => ?_, fun hv hp hbd => ?_, fun hvp hbd => ?_⟩
  · have hb : (g.vid != 0 || g.pid != 0) = true := by
      rcases hvp with hx | hx <;> simp [hx]
    simp [select_path, hb]
  · have hb : (g.busnum != 0 || g.devnum != 0) = true := by
      rcases hbd with hx | hx <;> simp [hx]
    simp [select_path, hv, hp, hb]
  · have hb1 : (g.vid != 0 || g.pid != 0) = true := by
      rcases hvp with hx | hx <;> simp [hx]
    have hb2 : (g.busnum != 0 || g.devnum != 0) = true := by
      rcases hbd with hx | hx <;> simp [hx]
    simp [select_path, hb1, hb2]

/-- Witness for C2: with both `--device` and `--vid-pid 1199` supplied the
manual-vs-vid:pid message surfaces (even though busnum:devnum is also set),
and with `--vid-pid 1199` plus `--busnum-devnum 1:2` and no manual path the
vid:pid-vs-busnum:devnum message surfaces, for a concrete udev helper that
would otherwise find devices. -/
theorem C2_witness :
    select_path findOk (some ("/dev/cdc-wdm0")) DeviceType.cdcWdm
      { busnum := 1, devnum := 2, vid := 4505, pid := 0 } =
      Except.error ("cannot specify device path and vid:pid lookup") ∧
    select_path findOk none DeviceType.cdcWdm
      { busnum := 1, devnum := 2, vid := 4505, pid := 0 } =
      Except.error ("cannot specify busnum:devnum and vid:pid lookups") :=
  ⟨(C2_check_order { busnum := 1, devnum := 2, vid := 4505, pid := 0 }
      ("/dev/cdc-wdm0") DeviceType.cdcWdm findOk).1 (Or.inl (by decide)),
   (C2_check_order { busnum := 1, devnum := 2, vid := 4505, pid := 0 }
      ("/dev/cdc-wdm0") DeviceType.cdcWdm findOk).2.2 (Or.inl (by decide))
      (Or.inl (by decide))⟩

/-! ## Claim C3 -/

/-- C3: from all-unset globals, `parse_busnum_devnum` follows its grammar —
a single all-digit decimal field DEV with `0 < DEV ≤ G_MAXUINT` succeeds
and sets only `devnum`; a `BUS:DEV` pair of such fields succeeds and sets
both to the decimal values given; and `0:5`, `5:0`, `1:2:3` and
`99999999999:1` each produce a parse error. -/
theorem C3_busnum_devnum_grammar :
    (∀ s : List Char, s ≠ [] → (∀ c ∈ s, isDigitChar c = true) →
      0 < decimalValue s → decimalValue s ≤ G_MAXUINT →
      parse_busnum_devnum s g0 =
        (true, { g0 with devnum := decimalValue s })) ∧
    (∀ b d : List Char, b ≠ [] → d ≠ [] →
      (∀ c ∈ b, isDigitChar c = true) → (∀ c ∈ d, isDigitChar c = true) →
      0 < decimalValue b → decimalValue b ≤ G_MAXUINT →
      0 < decimalValue d → decimalValue d ≤ G_MAXUINT →
      parse_busnum_devnum (b ++ ':' :: d) g0 =
        (true, { g0 with busnum := decimalValue b, devnum := decimalValue d })) ∧
    (parse_busnum_devnum ['0', ':', '5'] g0).1 = false ∧
    (parse_busnum_devnum ['5', ':', '0'] g0).1 = false ∧
    (parse_busnum_devnum ['1', ':', '2', ':', '3'] g0).1 = false ∧
    (parse_busnum_devnum
      ['9', '9', '9', '9', '9', '9', '9', '9', '9', '9', '9', ':', '1']
      g0).1 = false := by
  have hUL : G_MAXUINT ≤ ULONG_MAX := by norm_num [G_MAXUINT, ULONG_MAX]
  refine ⟨fun s hne hdig hpos hle => ?_,
    fun b d hbne hdne hbdig hddig hbpos hble hdpos hdle => ?_,
    by decide, by decide, by decide, by decide⟩
  · have hnc : ∀ c ∈ s, c ≠ ':' :=
      fun c hc => isDigitChar_ne_colon c (hdig c hc)
    have hv : strtoul s 10 = decimalValue s := by
      rw [strtoul_ten s hdig]
      exact Nat.min_eq_left (le_trans hle hUL)
    unfold parse_busnum_devnum
    rw [g_strsplit_single s hne hnc]
    show (if strtoul s 10 = 0 ∨ strtoul s 10 > G_MAXUINT
      then ((false : Bool), g0)
      else (true, { g0 with devnum := strtoul s 10 })) =
      (true, { g0 with devnum := decimalValue s })
    rw [hv, if_neg (by omega)]
  · have hbnc : ∀ c ∈ b, c ≠ ':' :=
      fun c hc => isDigitChar_ne_colon c (hbdig c hc)
    have hdnc : ∀ c ∈ d, c ≠ ':' :=
      fun c hc => isDigitChar_ne_colon c (hddig c hc)
    have hvb : strtoul b 10 = decimalValue b := by
      rw [strtoul_ten b hbdig]
      exact Nat.min_eq_left (le_trans hble hUL)
    have hvd : strtoul d 10 = decimalValue d := by
      rw [strtoul_ten d hddig]
      exact Nat.min_eq_left (le_trans hdle hUL)
    unfold parse_busnum_devnum
    rw [g_strsplit_pair b d hbnc hdnc]
    show (if strtoul b 10 = 0 ∨ strtoul b 10 > G_MAXUINT
      then ((false : Bool), g0)
      else if strtoul d 10 = 0 ∨ strtoul d 10 > G_MAXUINT
        then (false, { g0 with busnum := strtoul b 10 })
        else (true, { { g0 with busnum := strtoul b 10 } with
          devnum := strtoul d 10 })) =
      (true, { g0 with busnum := decimalValue b, devnum := decimalValue d })
    rw [hvb, hvd, if_neg (by omega), if_neg (by omega)]

/-- Witness for C3: `7` sets only the device number, `1:2` sets bus and
device numbers. -/
theorem C3_witness :
    parse_busnum_devnum ['7'] g0 = (true, { g0 with devnum := 7 }) ∧
    parse_busnum_devnum ['1', ':', '2'] g0 =
      (true, { g0 with busnum := 1, devnum := 2 }) := by
  constructor
  · exact (C3_busnum_devnum_grammar.1 ['7'] (by decide) (by decide)
      (by decide) (by decide)).trans (by decide)
  · exact (C3_busnum_devnum_grammar.2.1 ['1'] ['2'] (by decide) (by decide)
      (by decide) (by decide) (by decide) (by decide) (by decide)
      (by decide)).trans (by decide)

/-! ## Claim C4 -/

/-- C4: from all-unset globals, `parse_vid_pid` follows its grammar —
fields are parsed in base 16 and field 0 is always the vendor id; a single
all-hex field VID with `0 < VID ≤ G_MAXUINT16` succeeds and sets only
`vid`; a `VID:PID` pair of such fields succeeds and sets both; three or
more fields is an error; a single field whose value is 0 or exceeds 16
unsigned bits is an error; and `0:ABCD`, `ABCD:0`, `1:2:3` and `FFFFF`
each produce a parse error. -/
theorem C4_vid_pid_grammar :
    (∀ s : List Char, s ≠ [] → (∀ c ∈ s, isHexDigitChar c = true) →
      0 < hexValue s → hexValue s ≤ G_MAXUINT16 →
      parse_vid_pid s g0 = (true, { g0 with vid := hexValue s })) ∧
    (∀ v p : List Char, v ≠ [] → p ≠ [] →
      (∀ c ∈ v, isHexDigitChar c = true) →
      (∀ c ∈ p, isHexDigitChar c = true) →
      0 < hexValue v → hexValue v ≤ G_MAXUINT16 →
      0 < hexValue p → hexValue p ≤ G_MAXUINT16 →
      parse_vid_pid (v ++ ':' :: p) g0 =
        (true, { g0 with vid := hexValue v, pid := hexValue p })) ∧
    (∀ (s : List Char) (g : Globals), 3 ≤ (g_strsplit s).length →
      parse_vid_pid s g = (false, g)) ∧
    (∀ (s : List Char) (g : Globals), s ≠ [] →
      (∀ c ∈ s, isHexDigitChar c = true) →
      (hexValue s = 0 ∨ G_MAXUINT16 < hexValue s) →
      parse_vid_pid s g = (false, g)) ∧
    (parse_vid_pid ['0', ':', 'A', 'B', 'C', 'D'] g0).1 = false ∧
    (parse_vid_pid ['A', 'B', 'C', 'D', ':', '0'] g0).1 = false ∧
    (parse_vid_pid ['1', ':', '2', ':', '3'] g0).1 = false ∧
    (parse_vid_pid ['F', 'F', 'F', 'F', 'F'] g0).1 = false := by
  have hUL : G_MAXUINT16 ≤ ULONG_MAX := by norm_num [G_MAXUINT16, ULONG_MAX]
  refine ⟨fun s hne hdig hpos hle => ?_,
    fun v p hvne hpne hvdig hpdig hvpos hvle hppos hple => ?_,
    fun s g hlen => ?_, fun s g hne hdig herr => ?_,
    by decide, by decide, by decide, by decide⟩
  · have hnc : ∀ c ∈ s, c ≠ ':' :=
      fun c hc => isHexDigitChar_ne_colon c (hdig c hc)
    have hv : strtoul s 16 = hexValue s := by
      rw [strtoul_sixteen s hdig]
      exact Nat.min_eq_left (le_trans hle hUL)
    unfold parse_vid_pid
    rw [g_strsplit_single s hne hnc]
    show (if strtoul s 16 = 0 ∨ strtoul s 16 > G_MAXUINT16
      then ((false : Bool), g0)
      else (true, { g0 with vid := strtoul s 16 })) =
      (true, { g0 with vid := hexValue s })
    rw [hv, if_neg (by omega)]
  · have hvnc : ∀ c ∈ v, c ≠ ':' :=
      fun c hc => isHexDigitChar_ne_colon c (hvdig c hc)
    have hpnc : ∀ c ∈ p, c ≠ ':' :=
      fun c hc => isHexDigitChar_ne_colon c (hpdig c hc)
    have hvv : strtoul v 16 = hexValue v := by
      rw [strtoul_sixteen v hvdig]
      exact Nat.min_eq_left (le_trans hvle hUL)
    have hvp : strtoul p 16 = hexValue p := by
      rw [strtoul_sixteen p hpdig]
      exact Nat.min_eq_left (le_trans hple hUL)
    unfold parse_vid_pid
    rw [g_strsplit_pair v p hvnc hpnc]
    show (if strtoul p 16 = 0 ∨ strtoul p 16 > G_MAXUINT16
      then ((false : Bool), g0)
      else if strtoul v 16 = 0 ∨ strtoul v 16 > G_MAXUINT16
        then (false, { g0 with pid := strtoul p 16 })
        else (true, { { g0 with pid := strtoul p 16 } with
          vid := strtoul v 16 })) =
      (true, { g0 with vid := hexValue v, pid := hexValue p })
    rw [hvv, hvp, if_neg (by omega), if_neg (by omega)]
  · rcases hs : g_strsplit s with _ | ⟨f0, _ | ⟨f1, _ | ⟨f2, rest⟩⟩⟩
    · rw [hs] at hlen; simp at hlen
    · rw [hs] at hlen; simp at hlen
    · rw [hs] at hlen; simp at hlen
    · unfold parse_vid_pid; rw [hs]
  · have hnc : ∀ c ∈ s, c ≠ ':' :=
      fun c hc => isHexDigitChar_ne_colon c (hdig c hc)
    have hv : strtoul s 16 = min (hexValue s) ULONG_MAX :=
      strtoul_sixteen s hdig
    have hlt : G_MAXUINT16 < ULONG_MAX := by
      norm_num [G_MAXUINT16, ULONG_MAX]
    unfold parse_vid_pid
    rw [g_strsplit_single s hne hnc]
    show (if strtoul s 16 = 0 ∨ strtoul s 16 > G_MAXUINT16
      then ((false : Bool), g)
      else (true, { g with vid := strtoul s 16 })) = (false, g)
    rw [if_pos (by rw [hv]; omega)]

/-- Witness for C4: `12AB` sets only the vendor id (hexadecimal), `1:FFFF`
sets vendor and product ids, `1:2:3` has too many fields, and `0` is a
zero-valued single field. -/
theorem C4_witness :
    parse_vid_pid ['1', '2', 'A', 'B'] g0 =
      (true, { g0 with vid := 4779 }) ∧
    parse_vid_pid ['1', ':', 'F', 'F', 'F', 'F'] g0 =
      (true, { g0 with vid := 1, pid := 65535 }) ∧
    parse_vid_pid ['1', ':', '2', ':', '3'] g0 = (false, g0) ∧
    parse_vid_pid ['0'] g0 = (false, g0) := by
  refine ⟨?_, ?_, ?_, ?_⟩
  · exact (C4_vid_pid_grammar.1 ['1', '2', 'A', 'B'] (by decide) (by decide)
      (by decide) (by decide)).trans (by decide)
  · exact (C4_vid_pid_grammar.2.1 ['1'] ['F', 'F', 'F', 'F'] (by decide)
      (by decide) (by decide) (by decide) (by decide) (by decide)
      (by decide) (by decide)).trans (by decide)
  · exact C4_vid_pid_grammar.2.2.1 ['1', ':', '2', ':', '3'] g0 (by decide)
  · exact C4_vid_pid_grammar.2.2.2.1 ['0'] g0 (by decide) (by decide)
      (Or.inl (by decide))

/-! ## Claim C5 -/

/-- C5: exactly one of the three actions must be requested — with zero
action flags the run fails with `no actions specified`, with more than one
it fails with `too many actions specified`; in both cases the result is
the same for every udev helper and every operation table (so no operation
is dispatched) and the exit status is EXIT_FAILURE. -/
theorem C5_action_count (h : UdevHelper) (ops : Operations) (c : Config) :
    (n_actions c = 0 →
      main_run h ops c = Except.error ("no actions specified") ∧
      exit_status (main_run h ops c) = 1) ∧
    (n_actions c > 1 →
      main_run h ops c = Except.error ("too many actions specified") ∧
      exit_status (main_run h ops c) = 1) := by
  constructor
  · intro h0
    have hm : main_run h ops c = Except.error ("no actions specified") := by
      simp [main_run, h0]
    exact ⟨hm, by rw [hm]; rfl⟩
  · intro h1
    have hm : main_run h ops c = Except.error ("too many actions specified") := by
      have hne : ¬ n_actions c = 0 := by omega
      simp [main_run, hne, h1]
    exact ⟨hm, by rw [hm]; rfl⟩

/-- Witness for C5: a run with no action flag, and a run combining
`--update` with `--verify`, each with an image supplied and cooperative
collaborators, still fail with the respective message and exit status 1. -/
theorem C5_witness :
    (main_run findOk (opsConst true)
        { baseConfig with image_strv := [("fw.cwe")] } =
        Except.error ("no actions specified") ∧
      exit_status (main_run findOk (opsConst true)
        { baseConfig with image_strv := [("fw.cwe")] }) = 1) ∧
    (main_run findOk (opsConst true)
        { baseConfig with
          action_update_flag := true
          action_verify_flag := true
          image_strv := [("fw.cwe")] } =
        Except.error ("too many actions specified") ∧
      exit_status (main_run findOk (opsConst true)
        { baseConfig with
          action_update_flag := true
          action_verify_flag := true
          image_strv := [("fw.cwe")] }) = 1) :=
  ⟨(C5_action_count findOk (opsConst true)
      { baseConfig with image_strv := [("fw.cwe")] }).1 (by decide),
   (C5_action_count findOk (opsConst true)
      { baseConfig with
        action_update_flag := true
        action_verify_flag := true
        image_strv := [("fw.cwe")] }).2
      (by decide)⟩

/-! ## Claim C6 -/

/-- C6 is refuted on its "regardless of action validity" part: in a run
with an empty image list and an invalid action set (here: zero action
flags), the surfaced error is `no actions specified` — the action-count
check runs first, so the run does not fail with
`no firmware images specified`. -/
theorem C6_counterexample :
    main_run findOk (opsConst true) baseConfig =
      Except.error ("no actions specified") ∧
    ("no actions specified" : String) ≠ ("no firmware images specified") := by
  exact ⟨rfl, by decide⟩

/-- C6 amended: for every run with a valid action set (exactly one action
flag) and an empty image list, the run fails with
`no firmware images specified` for every collaborator (so no operation is
dispatched) and exits with failure, regardless of which action was
selected; with an invalid action count the action-count error wins
instead. -/
theorem C6_images_required (h : UdevHelper) (ops : Operations) (c : Config)
    (hact : n_actions c = 1) (himg : c.image_strv = []) :
    main_run h ops c = Except.error ("no firmware images specified") ∧
    exit_status (main_run h ops c) = 1 := by
  have hm : main_run h ops c = Except.error ("no firmware images specified") := by
    have h0 : ¬ n_actions c = 0 := by omega
    have h1 : ¬ n_actions c > 1 := by omega
    simp [main_run, h0, h1, himg]
  exact ⟨hm, by rw [hm]; rfl⟩

/-- Witness for the amended C6: a `--verify` run with no positional image
arguments fails with the image error and exit status 1. -/
theorem C6_witness :
    main_run findOk (opsConst true)
      { baseConfig with action_verify_flag := true } =
      Except.error ("no firmware images specified") ∧
    exit_status (main_run findOk (opsConst true)
      { baseConfig with action_verify_flag := true }) = 1 :=
  C6_images_required findOk (opsConst true)
    { baseConfig with action_verify_flag := true } (by decide) (by decide)

/-! ## Claim C7 -/

/-- C7: the resolution algorithm of `select_path`.  With a manual path and
no conflicting criteria the manual path is returned verbatim for every
udev helper (no existence check, no collaborator query).  Otherwise the
enumeration collaborator is queried: if it fails, its error detail is the
result; if its sysfs path holds no device node of the requested type,
resolution fails with `no devices found in sysfs path: <path>`; otherwise
the first candidate in collaborator order is selected. -/
theorem C7_resolution (g : Globals) (ty : DeviceType) :
    (∀ (h : UdevHelper) (m : String),
      g.vid = 0 → g.pid = 0 → g.busnum = 0 → g.devnum = 0 →
      select_path h (some m) ty g = Except.ok m) ∧
    (∀ (h : UdevHelper) (e : String),
      ¬ ((g.vid ≠ 0 ∨ g.pid ≠ 0) ∧ (g.busnum ≠ 0 ∨ g.devnum ≠ 0)) →
      h.find g.vid g.pid g.busnum g.devnum = Except.error e →
      select_path h none ty g = Except.error e) ∧
    (∀ (h : UdevHelper) (p : String),
      ¬ ((g.vid ≠ 0 ∨ g.pid ≠ 0) ∧ (g.busnum ≠ 0 ∨ g.devnum ≠ 0)) →
      h.find g.vid g.pid g.busnum g.devnum = Except.ok p →
      h.listDevices ty p = [] →
      select_path h none ty g =
        Except.error ("no devices found in sysfs path: " ++ p)) ∧
    (∀ (h : UdevHelper) (p d : String) (ds : List String),
      ¬ ((g.vid ≠ 0 ∨ g.pid ≠ 0) ∧ (g.busnum ≠ 0 ∨ g.devnum ≠ 0)) →
      h.find g.vid g.pid g.busnum g.devnum = Except.ok p →
      h.listDevices ty p = d :: ds →
      select_path h none ty g = Except.ok d) := by
  refine ⟨fun h m hv hp hb hd => ?_, fun h e hx hf => ?_,
    fun h p hx hf hl => ?_, fun h p d ds hx hf hl => ?_⟩
  · simp [select_path, hv, hp, hb, hd]
  · have hc : ((g.vid != 0 || g.pid != 0) &&
        (g.busnum != 0 || g.devnum != 0)) = false := by
      rcases Decidable.not_and_iff_or_not.mp hx with hy | hy <;>
        push_neg at hy <;> simp [hy.1, hy.2]
    simp [select_path, hc, hf]
  · have hc : ((g.vid != 0 || g.pid != 0) &&
        (g.busnum != 0 || g.devnum != 0)) = false := by
      rcases Decidable.not_and_iff_or_not.mp hx with hy | hy <;>
        push_neg at hy <;> simp [hy.1, hy.2]
    simp [select_path, hc, hf, hl]
  · have hc : ((g.vid != 0 || g.pid != 0) &&
        (g.busnum != 0 || g.devnum != 0)) = false := by
      rcases Decidable.not_and_iff_or_not.mp hx with hy | hy <;>
        push_neg at hy <;> simp [hy.1, hy.2]
    simp [select_path, hc, hf, hl]

/-- Witness for C7: a manual path is returned verbatim even for a helper
that would fail; a vid:pid lookup with the empty-list helper fails with
the sysfs-path error; with the two-device helper the first device in
collaborator order is selected. -/
theorem C7_witness :
    select_path findFail (some ("/dev/cdc-wdm7")) DeviceType.cdcWdm g0 =
      Except.ok ("/dev/cdc-wdm7") ∧
    select_path findFail none DeviceType.cdcWdm { g0 with vid := 4505 } =
      Except.error ("no device found matching filters") ∧
    select_path findOkEmpty none DeviceType.cdcWdm { g0 with vid := 4505 } =
      Except.error ("no devices found in sysfs path: /sys/devices/usb1/1-2") ∧
    select_path findOk none DeviceType.cdcWdm { g0 with vid := 4505 } =
      Except.ok ("/dev/cdc-wdm0") := by
  refine ⟨(C7_resolution g0 DeviceType.cdcWdm).1 findFail ("/dev/cdc-wdm7")
      rfl rfl rfl rfl,
    (C7_resolution { g0 with vid := 4505 } DeviceType.cdcWdm).2.1 findFail
      ("no device found matching filters") (by decide) rfl, ?_,
    (C7_resolution { g0 with vid := 4505 } DeviceType.cdcWdm).2.2.2 findOk
      ("/sys/devices/usb1/1-2") ("/dev/cdc-wdm0") [("/dev/cdc-wdm1")]
      (by decide) rfl rfl⟩
  have hx := (C7_resolution { g0 with vid := 4505 } DeviceType.cdcWdm).2.2.1
    findOkEmpty ("/sys/devices/usb1/1-2") (by decide) rfl rfl
  simpa using hx

/-! ## Claim C8 -/

/-- C8: action-dispatch parameter binding.  An `Update` run resolves with
the cdc-wdm character-device type and the `--device` path as manual
source, and invokes the update operation with exactly the image list, the
resolved path, the firmware version, the config version, the carrier, the
proxy flag and the MBIM flag.  An `UpdateQdl` run resolves with the
serial/TTY device type and the `--serial` path as manual source — through
the same `select_path`, hence the same selection-mechanism validation —
and invokes the bootloader-mode update operation with exactly the image
list and the resolved path. -/
theorem C8_dispatch (h : UdevHelper) (ops : Operations) (c : Config)
    (p : String) (himg : c.image_strv ≠ []) :
    (c.action_update_flag = true → c.action_update_qdl_flag = false →
      c.action_verify_flag = false →
      select_path h c.device_str DeviceType.cdcWdm c.toGlobals =
        Except.ok p →
      main_run h ops c = Except.ok (ops.update_run c.image_strv p
        c.firmware_version_str c.config_version_str c.carrier_str
        c.device_open_proxy_flag c.device_open_mbim_flag)) ∧
    (c.action_update_qdl_flag = true → c.action_update_flag = false →
      c.action_verify_flag = false →
      select_path h c.serial_str DeviceType.tty c.toGlobals =
        Except.ok p →
      main_run h ops c = Except.ok (ops.update_qdl_run c.image_strv p)) := by
  constructor
  · intro hu hq hv hsel
    simp [main_run, n_actions, hu, hq, hv, himg, hsel]
  · intro hq hu hv hsel
    simp [main_run, n_actions, hu, hq, hv, himg, hsel]

/-- Witness for C8: with the two-device helper, an `--update` run binds the
resolved cdc-wdm path plus all five update parameters, and an
`--update-qdl` run with a manual `--serial` path binds that path
verbatim (checked by operation tables that verify their arguments). -/
theorem C8_witness :
    main_run findOk opsUpdateCheck cfgUpdate = Except.ok true ∧
    main_run findOk opsQdlCheck cfgQdl = Except.ok true := by
  have h1 := (C8_dispatch findOk opsUpdateCheck cfgUpdate ("/dev/cdc-wdm0")
      (by decide)).1 rfl rfl rfl (by rfl)
  have h2 := (C8_dispatch findOk opsQdlCheck cfgQdl ("/dev/ttyUSB3")
      (by decide)).2 rfl rfl rfl (by rfl)
  rw [h1, h2]
  exact ⟨rfl, rfl⟩

/-! ## Claim C9 -/

/-- C9: a `Verify` run with a non-empty image list and no selection flags
performs no device resolution — the result is the same for every udev
helper — and invokes the verify operation with only the image list; the
operation's boolean result is returned verbatim as the process exit
status (EXIT_SUCCESS iff the operation reported success). -/
theorem C9_verify (h : UdevHelper) (ops : Operations) (c : Config)
    (hv : c.action_verify_flag = true) (hu : c.action_update_flag = false)
    (hq : c.action_update_qdl_flag = false) (himg : c.image_strv ≠ [])
    (_hdev : c.device_str = none) (_hser : c.serial_str = none)
    (_hvid : c.vid = 0) (_hpid : c.pid = 0) (_hbus : c.busnum = 0)
    (_hdevn : c.devnum = 0) :
    main_run h ops c = Except.ok (ops.verify_run c.image_strv) ∧
    exit_status (main_run h ops c) =
      cond (ops.verify_run c.image_strv) 0 1 := by
  have hm : main_run h ops c = Except.ok (ops.verify_run c.image_strv) := by
    simp [main_run, n_actions, hv, hu, hq, himg]
  exact ⟨hm, by rw [hm]; rfl⟩

/-- Witness for C9: `--verify file1.cwe file2.nvu` with no selection flags
invokes the verify operation on exactly that image list (even under a
helper that would fail any lookup) and exits with 0 when the operation
succeeds. -/
theorem C9_witness :
    main_run findFail opsVerifyCheck cfgVerify = Except.ok true ∧
    exit_status (main_run findFail opsVerifyCheck cfgVerify) = 0 := by
  have hx := C9_verify findFail opsVerifyCheck cfgVerify rfl rfl rfl
    (by decide) rfl rfl rfl rfl rfl rfl
  refine ⟨?_, ?_⟩
  · rw [hx.1]; rfl
  · rw [hx.2]; rfl

/-! ## Claim C10 -/

/-- C10 (implicit): a `Verify` run never evaluates the selection-mechanism
exclusivity checks, because they live inside `select_path`, which the
verify branch does not call: even with a manual device path, vid:pid and
busnum:devnum criteria all set simultaneously, the run produces no
conflict error, dispatches the verify operation on the image list, and
exits with success whenever the operation succeeds. -/
theorem C10_verify_no_exclusivity (h : UdevHelper) (ops : Operations)
    (c : Config) (hv : c.action_verify_flag = true)
    (hu : c.action_update_flag = false)
    (hq : c.action_update_qdl_flag = false) (himg : c.image_strv ≠ [])
    (_hdev : c.device_str.isSome = true) (_hvid : c.vid ≠ 0)
    (_hpid : c.pid ≠ 0) (_hbus : c.busnum ≠ 0) (_hdevn : c.devnum ≠ 0) :
    main_run h ops c = Except.ok (ops.verify_run c.image_strv) ∧
    (ops.verify_run c.image_strv = true →
      exit_status (main_run h ops c) = 0) := by
  have hm : main_run h ops c = Except.ok (ops.verify_run c.image_strv) := by
    simp [main_run, n_actions, hv, hu, hq, himg]
  exact ⟨hm, fun hb => by rw [hm, hb]; rfl⟩

/-- Witness for C10: `--verify` combined with `--device`, `--vid-pid` and
`--busnum-devnum` all set still dispatches verify and exits 0. -/
theorem C10_witness :
    main_run findOk (opsConst true) cfgVerifyAllCriteria = Except.ok true ∧
    exit_status (main_run findOk (opsConst true) cfgVerifyAllCriteria) = 0 := by
  have hx := C10_verify_no_exclusivity findOk (opsConst true)
    cfgVerifyAllCriteria rfl rfl rfl (by decide) rfl (by decide) (by decide)
    (by decide) (by decide)
  exact ⟨hx.1, hx.2 rfl⟩

end Qfu
